import Mathlib

/-!
Verification of the doctor-booking / lab-test backend.

The Python source is embedded shallowly:

* numeric values (Python `int` / `float` used for prices, ratings,
  distances) are modelled over `ℚ`/`ℤ`/`ℕ` with exact arithmetic;
* Python dictionaries keyed by strings are modelled as association
  lists preserving insertion order (matching `dict` iteration order);
* calendar dates are modelled by their canonical ISO-8601 strings; the
  availability grids only ever hold canonical strings, on which
  `datetime.date` equality coincides with string equality;
* fallible attribute accesses (pydantic models silently drop unknown
  constructor keywords, so reading such an attribute raises
  `AttributeError`) are modelled with `Except PyErr`;
* `random`-dependent data (the generated lab-collection slot pool) is
  passed in as an explicit parameter;
* the haversine distance, being transcendental, is abstracted as a
  function parameter `dist`; the relevance score that consumes it is
  embedded exactly.
-/

/-- A Python runtime exception escaping an embedded function. -/
inductive PyErr where
  | attributeError (obj attr : String)
  | indexError (message : String)
deriving DecidableEq, Repr

/-- Round-half-to-even on rationals, the semantics of Python `round`
for a tie; in this model all arithmetic is exact over `ℚ`. -/
def rhe (x : ℚ) : ℤ :=
  if x - ⌊x⌋ < 1/2 then ⌊x⌋
  else if 1/2 < x - ⌊x⌋ then ⌊x⌋ + 1
  else if ⌊x⌋ % 2 = 0 then ⌊x⌋ else ⌊x⌋ + 1

/-- Python `round(x, 2)`: round to the nearest multiple of `1/100`,
ties to even. -/
def round2 (x : ℚ) : ℚ := (rhe (100 * x) : ℚ) / 100

theorem rhe_ge (x : ℚ) : x - 1/2 ≤ (rhe x : ℚ) := by
  unfold rhe
  have hfl : (⌊x⌋ : ℚ) ≤ x := Int.floor_le x
  have hfl' : x < (⌊x⌋ : ℚ) + 1 := Int.lt_floor_add_one x
  split
  · linarith
  · split
    · push_cast; linarith
    · split
      · linarith
      · push_cast; linarith

theorem rhe_le (x : ℚ) : (rhe x : ℚ) ≤ x + 1/2 := by
  unfold rhe
  have hfl : (⌊x⌋ : ℚ) ≤ x := Int.floor_le x
  split
  · linarith
  · rename_i h1
    push_neg at h1
    split
    · push_cast; linarith
    · split
      · linarith
      · push_cast; linarith

theorem rhe_mono {x y : ℚ} (h : x ≤ y) : rhe x ≤ rhe y := by
  by_contra hc
  push_neg at hc
  have hc' : (rhe y : ℚ) + 1 ≤ (rhe x : ℚ) := by
    exact_mod_cast Int.add_one_le_iff.mpr hc
  have hxy : x = y :=
    le_antisymm h (by linarith [rhe_ge y, rhe_le x])
  subst hxy
  linarith

theorem round2_mono {x y : ℚ} (h : x ≤ y) : round2 x ≤ round2 y := by
  unfold round2
  have : rhe (100 * x) ≤ rhe (100 * y) := rhe_mono (by linarith)
  have : ((rhe (100 * x) : ℚ)) ≤ (rhe (100 * y) : ℚ) := by exact_mod_cast this
  linarith

theorem rhe_zero : rhe 0 = 0 := by
  unfold rhe
  norm_num

theorem rhe_hundred : rhe 100 = 100 := by
  unfold rhe
  norm_num

theorem round2_range {x : ℚ} (h0 : 0 ≤ x) (h1 : x ≤ 1) :
    0 ≤ round2 x ∧ round2 x ≤ 1 := by
  constructor
  · have h := round2_mono h0
    simpa [round2, rhe_zero] using h
  · have h := round2_mono h1
    have h100 : round2 1 = 1 := by
      unfold round2
      norm_num [rhe_hundred]
    linarith [h, h100.symm.le]

/-- Embeds `utils.calculate_relevance_score`: distance weighted 0.4
(saturating past 10 km), rating (0-5) weighted 0.3, same-day
availability weighted 0.3, result rounded to two decimals. -/
def calculate_relevance_score (distance rating : ℚ) (is_available_today : Bool) : ℚ :=
  let dist_score := max 0 (10 - distance) / 10
  let rating_score := rating / 5
  let avail_score : ℚ := if is_available_today then 1 else 0
  round2 (dist_score * (4/10) + rating_score * (3/10) + avail_score * (3/10))

/-- The comparison used to model Python's `list.sort(key=key, reverse=True)`:
`a` may come before `b` when `key b ≤ key a`. -/
def rKey {α β : Type} [LinearOrder β] (key : α → β) (a b : α) : Prop :=
  key b ≤ key a

instance rKey_decidableRel {α β : Type} [LinearOrder β] (key : α → β) :
    DecidableRel (rKey key) := fun a b => inferInstanceAs (Decidable (key b ≤ key a))

instance rKey_isTotal {α β : Type} [LinearOrder β] (key : α → β) :
    IsTotal α (rKey key) := ⟨fun a b => le_total (key b) (key a)⟩

instance rKey_isTrans {α β : Type} [LinearOrder β] (key : α → β) :
    IsTrans α (rKey key) := ⟨fun _ _ _ h1 h2 => le_trans h2 h1⟩

/-- Python `list.sort(key=key, reverse=True)`: descending and stable
(CPython's sort is stable, and `reverse=True` keeps ties in original
order); any stable sort computes the same list, so an insertion sort
models it exactly. -/
def sortDesc {α β : Type} [LinearOrder β] (key : α → β) (l : List α) : List α :=
  List.insertionSort (rKey key) l

theorem sortDesc_perm {α β : Type} [LinearOrder β] (key : α → β) (l : List α) :
    List.Perm (sortDesc key l) l := List.perm_insertionSort _ l

theorem sortDesc_sorted {α β : Type} [LinearOrder β] (key : α → β) (l : List α) :
    (sortDesc key l).Pairwise (fun a b => key b ≤ key a) :=
  List.sorted_insertionSort (rKey key) l

theorem filter_orderedInsert_of_eq {α β : Type} [LinearOrder β] [DecidableEq β]
    (key : α → β) (s : β) (x : α) (hx : key x = s) :
    ∀ l : List α, (List.orderedInsert (rKey key) x l).filter (fun y => decide (key y = s)) =
      x :: l.filter (fun y => decide (key y = s))
  | [] => by simp [hx]
  | b :: l => by
    by_cases hb : rKey key x b
    · simp [List.orderedInsert, hb, hx]
    · have hbs : ¬ (key b = s) := by
        intro h
        exact hb (le_of_eq (by rw [hx, h]))
      simp only [List.orderedInsert, if_neg hb, List.filter_cons,
        filter_orderedInsert_of_eq key s x hx l]
      simp [hbs]

theorem filter_orderedInsert_of_ne {α β : Type} [LinearOrder β] [DecidableEq β]
    (key : α → β) (s : β) (x : α) (hx : ¬ (key x = s)) :
    ∀ l : List α, (List.orderedInsert (rKey key) x l).filter (fun y => decide (key y = s)) =
      l.filter (fun y => decide (key y = s))
  | [] => by simp [hx]
  | b :: l => by
    by_cases hb : rKey key x b
    · simp [List.orderedInsert, hb, hx]
    · simp only [List.orderedInsert, if_neg hb, List.filter_cons,
        filter_orderedInsert_of_ne key s x hx l]

/-- Stability of the modelled sort: the elements carrying any fixed key
occur in the output in their original relative order. -/
theorem sortDesc_filter_eq {α β : Type} [LinearOrder β] [DecidableEq β]
    (key : α → β) (s : β) :
    ∀ l : List α, (sortDesc key l).filter (fun y => decide (key y = s)) =
      l.filter (fun y => decide (key y = s))
  | [] => rfl
  | b :: l => by
    by_cases hb : key b = s
    · rw [sortDesc, List.insertionSort, filter_orderedInsert_of_eq key s b hb]
      rw [show List.insertionSort (rKey key) l = sortDesc key l from rfl,
        sortDesc_filter_eq key s l]
      simp [hb]
    · rw [sortDesc, List.insertionSort, filter_orderedInsert_of_ne key s b hb]
      rw [show List.insertionSort (rKey key) l = sortDesc key l from rfl,
        sortDesc_filter_eq key s l]
      simp [hb]

/-!
## Doctor-booking data model (`agents/doctor_booking/models.py`)

Presentation-only fields (qualifications, languages, address text,
review counts, consultation modes) and the raw coordinates are omitted:
the embedded operations consume the distance-from-origin through the
abstract parameter `dist`, mirroring the single `haversine` call site.
Dates are the canonical ISO strings produced by `date.isoformat`.
-/

/-- One bookable grid cell of a provider's availability. -/
structure Slot where
  slot_id : String
  start_time : String
  end_time : String
  is_booked : Bool
deriving DecidableEq

/-- One day of a provider's 7-day availability grid. -/
structure DayAvailability where
  date : String
  slots : List Slot
deriving DecidableEq

/-- Fee schedule; pydantic validates both as integers `≥ 0`. -/
structure Fees where
  online : ℕ
  in_clinic : ℕ
deriving DecidableEq

/-- A provider record. -/
structure Doctor where
  id : String
  name : String
  specialty : String
  rating : ℚ
  fees : Fees
  availability : List DayAvailability
deriving DecidableEq

/-- An appointment record minted by a successful booking. -/
structure Appointment where
  appointment_id : String
  doctor_id : String
  patient_id : String
  slot_id : String
  date : String
  type : String
  status : String
deriving DecidableEq

/-- `MockDatabase`: insertion-ordered stores of doctors and
appointments (Python dicts iterate in insertion order). -/
structure MockDB where
  doctors : List Doctor
  appointments : List Appointment
deriving DecidableEq

/-- The dictionary returned by `MockDatabase.book_slot`. -/
inductive BookResult where
  | error (message : String)
  | success (appointment_id message : String)
deriving DecidableEq

/-- `self.doctors.get(doctor_id)`. -/
def findDoctor (db : MockDB) (doctor_id : String) : Option Doctor :=
  db.doctors.find? (fun d => d.id == doctor_id)

/-- `next((d for d in doc.availability if d.date == target_date), None)`. -/
def findDay (doc : Doctor) (date_str : String) : Option DayAvailability :=
  doc.availability.find? (fun d => d.date == date_str)

/-- `next((s for s in day_avail.slots if s.slot_id == slot_id), None)`. -/
def findSlot (day : DayAvailability) (slot_id : String) : Option Slot :=
  day.slots.find? (fun s => s.slot_id == slot_id)

/-- Composite lookup of the slot `book_slot` would address. -/
def slotLookup (db : MockDB) (doctor_id date_str slot_id : String) : Option Slot :=
  (findDoctor db doctor_id).bind fun doc =>
    (findDay doc date_str).bind fun day => findSlot day slot_id

/-- `slot.is_booked = True` on the first slot carrying `slot_id`
(Python mutates the object `next` returned). -/
def bookSlotInSlots : List Slot → String → List Slot
  | [], _ => []
  | s :: rest, sid =>
    if s.slot_id == sid then { s with is_booked := true } :: rest
    else s :: bookSlotInSlots rest sid

/-- The in-place slot mutation seen at the granularity of a day list. -/
def bookSlotInDays : List DayAvailability → String → String → List DayAvailability
  | [], _, _ => []
  | d :: rest, dt, sid =>
    if d.date == dt then { d with slots := bookSlotInSlots d.slots sid } :: rest
    else d :: bookSlotInDays rest dt sid

/-- The in-place slot mutation seen at the granularity of the doctor store. -/
def bookSlotInDoctors : List Doctor → String → String → String → List Doctor
  | [], _, _, _ => []
  | doc :: rest, did, dt, sid =>
    if doc.id == did then
      { doc with availability := bookSlotInDays doc.availability dt sid } :: rest
    else doc :: bookSlotInDoctors rest did dt sid

/-- Embeds `MockDatabase.book_slot`: provider → day → slot lookups, the
consumed-flag check, the in-place mutation and the sequential
appointment mint, returning the result together with the new store. -/
def book_slot (db : MockDB) (doctor_id date_str slot_id patient_id : String) :
    BookResult × MockDB :=
  match findDoctor db doctor_id with
  | none => (.error "Doctor not found", db)
  | some doc =>
    match findDay doc date_str with
    | none => (.error "Date not available", db)
    | some day =>
      match findSlot day slot_id with
      | none => (.error "Slot not found", db)
      | some slot =>
        if slot.is_booked then (.error "Slot already booked", db)
        else
          let appt_id := "appt_" ++ toString (db.appointments.length + 1)
          let appt : Appointment :=
            { appointment_id := appt_id, doctor_id := doctor_id,
              patient_id := patient_id, slot_id := slot_id, date := date_str,
              type := "in_clinic", status := "confirmed" }
          (.success appt_id ("Booked with " ++ doc.name),
           { doctors := bookSlotInDoctors db.doctors doctor_id date_str slot_id,
             appointments := db.appointments ++ [appt] })

/-!
## `MockDatabase.search_doctors`
-/

/-- The enriched result row `search_doctors` builds per surviving doctor. -/
structure SearchEntry where
  doctor : Doctor
  distance_km : ℚ
  score : ℚ
  available_today : Bool
deriving DecidableEq

/-- `any(not s.is_booked for s in doc.availability[0].slots)`; the `[]`
case is never reached, the caller raises `IndexError` first. -/
def hasSlotsToday (doc : Doctor) : Bool :=
  match doc.availability with
  | [] => false
  | day :: _ => day.slots.any (fun s => !s.is_booked)

/-- Python `str.lower`, character-wise (the catalog data is ASCII). -/
def pyLower (s : String) : String :=
  String.mk (s.data.map Char.toLower)

/-- Python `c in s` for a single character. -/
def pyHasChar (s : String) (c : Char) : Bool :=
  s.data.contains c

/-- Splitter underlying `str.split(sep)` for a one-character separator,
keeping empty pieces exactly as Python does. -/
def splitCharAux (c : Char) : List Char → List Char → List (List Char)
  | [], acc => [acc.reverse]
  | x :: xs, acc =>
    if x == c then acc.reverse :: splitCharAux c xs []
    else splitCharAux c xs (x :: acc)

/-- Python `s.split(c)` for a one-character separator. -/
def pySplitChar (s : String) (c : Char) : List String :=
  (splitCharAux c s.data []).map String.mk

/-- ASCII whitespace, the only kind the embedded strings carry. -/
def isSpaceChar (c : Char) : Bool :=
  c == ' ' || c == '\t' || c == '\n' || c == '\r'

/-- Python `str.strip()` (on the ASCII strings of this catalog). -/
def pyStrip (s : String) : String :=
  String.mk (((s.data.dropWhile isSpaceChar).reverse.dropWhile isSpaceChar).reverse)

/-- Does `hay` start with `needle`? -/
def startsWithSeq : List Char → List Char → Bool
  | [], _ => true
  | _ :: _, [] => false
  | a :: as, b :: bs => a == b && startsWithSeq as bs

/-- Does the character sequence `needle` occur contiguously in `hay`? -/
def containsSeq (needle : List Char) : List Char → Bool
  | [] => startsWithSeq needle []
  | c :: rest => startsWithSeq needle (c :: rest) || containsSeq needle rest

/-- Python's contiguous-substring test `needle in hay`. -/
def isSub (needle hay : String) : Bool :=
  containsSeq needle.toList hay.toList

/-- The query gate: a falsy (empty) query admits everyone, otherwise a
case-insensitive substring match against specialty or name. -/
def passesQuery (query : String) (doc : Doctor) : Bool :=
  if query == "" then true
  else
    let q := pyLower query
    isSub q (pyLower doc.specialty) || isSub q (pyLower doc.name)

/-- The optional numeric filters; `none` models an absent key. -/
structure DocFilters where
  max_fees : Option ℚ
  min_rating : Option ℚ
deriving DecidableEq

/-- `filters.get("max_fees") and doc.fees.in_clinic > filters["max_fees"]`:
a missing or zero (falsy) value disables the exclusion. -/
def feeExcludes (f : DocFilters) (doc : Doctor) : Bool :=
  match f.max_fees with
  | none => false
  | some v => decide (v ≠ 0) && decide ((doc.fees.in_clinic : ℚ) > v)

/-- `filters.get("min_rating") and doc.rating < filters["min_rating"]`. -/
def ratingExcludes (f : DocFilters) (doc : Doctor) : Bool :=
  match f.min_rating with
  | none => false
  | some v => decide (v ≠ 0) && decide (doc.rating < v)

/-- A doctor survives both `continue` checks. -/
def passesFilters (f : DocFilters) (doc : Doctor) : Bool :=
  !feeExcludes f doc && !ratingExcludes f doc

/-- The result dictionary appended for a surviving doctor;
`distance_km` is `round(dist, 2)`, the score consumes the unrounded
distance. -/
def mkSearchEntry (dist : Doctor → ℚ) (doc : Doctor) : SearchEntry :=
  { doctor := doc
    distance_km := round2 (dist doc)
    score := calculate_relevance_score (dist doc) doc.rating (hasSlotsToday doc)
    available_today := hasSlotsToday doc }

/-- The main loop of `search_doctors` before sorting: query gate,
filter gate, then `doc.availability[0]` (an `IndexError` on an empty
grid) and the score. -/
def collectEntries (dist : Doctor → ℚ) (query : String) (f : DocFilters) :
    List Doctor → Except PyErr (List SearchEntry)
  | [] => .ok []
  | doc :: rest =>
    if passesQuery query doc && passesFilters f doc then
      match doc.availability with
      | [] => .error (.indexError "list index out of range")
      | _ :: _ =>
        match collectEntries dist query f rest with
        | .error e => .error e
        | .ok es => .ok (mkSearchEntry dist doc :: es)
    else collectEntries dist query f rest

/-- Embeds `MockDatabase.search_doctors`, with the haversine distance
from the caller's origin abstracted as `dist`. -/
def search_doctors (dist : Doctor → ℚ) (db : MockDB) (query : String)
    (f : DocFilters) : Except PyErr (List SearchEntry) :=
  (collectEntries dist query f db.doctors).map (sortDesc (fun e => e.score))

theorem collectEntries_ok (dist : Doctor → ℚ) (query : String) (f : DocFilters) :
    ∀ l : List Doctor, (∀ d ∈ l, d.availability ≠ []) →
      collectEntries dist query f l =
        .ok ((l.filter (fun d => passesQuery query d && passesFilters f d)).map
          (mkSearchEntry dist))
  | [], _ => rfl
  | doc :: rest, h => by
    have hr := collectEntries_ok dist query f rest (fun d hd => h d (List.mem_cons_of_mem _ hd))
    have hdoc := h doc (List.mem_cons_self doc rest)
    by_cases hp : passesQuery query doc && passesFilters f doc
    · cases havail : doc.availability with
      | nil => exact absurd havail hdoc
      | cons day rest' =>
        simp [collectEntries, hp, havail, hr, List.filter_cons]
    · simp [collectEntries, hp, hr, List.filter_cons]

theorem find?_bookSlotInSlots_same (sid : String) :
    ∀ l : List Slot, (bookSlotInSlots l sid).find? (fun s => s.slot_id == sid) =
      (l.find? (fun s => s.slot_id == sid)).map (fun s => { s with is_booked := true })
  | [] => rfl
  | s :: rest => by
    by_cases h : s.slot_id = sid
    · simp [bookSlotInSlots, h]
    · simp [bookSlotInSlots, h, find?_bookSlotInSlots_same sid rest]

theorem find?_bookSlotInSlots_ne (sid sid' : String) (hne : sid' ≠ sid) :
    ∀ l : List Slot, (bookSlotInSlots l sid).find? (fun s => s.slot_id == sid') =
      l.find? (fun s => s.slot_id == sid')
  | [] => rfl
  | s :: rest => by
    by_cases h : s.slot_id = sid
    · have h' : ¬ (s.slot_id = sid') := by
        rw [h]; exact fun hh => hne hh.symm
      simp [bookSlotInSlots, h, h', Ne.symm hne]
    · by_cases h2 : s.slot_id = sid'
      · simp [bookSlotInSlots, h, h2, hne]
      · simp [bookSlotInSlots, h, h2, find?_bookSlotInSlots_ne sid sid' hne rest]

theorem find?_bookSlotInDays_same (dt sid : String) :
    ∀ l : List DayAvailability,
      (bookSlotInDays l dt sid).find? (fun d => d.date == dt) =
        (l.find? (fun d => d.date == dt)).map
          (fun d => { d with slots := bookSlotInSlots d.slots sid })
  | [] => rfl
  | d :: rest => by
    by_cases h : d.date = dt
    · simp [bookSlotInDays, h]
    · simp [bookSlotInDays, h, find?_bookSlotInDays_same dt sid rest]

theorem find?_bookSlotInDays_ne (dt sid dt' : String) (hne : dt' ≠ dt) :
    ∀ l : List DayAvailability,
      (bookSlotInDays l dt sid).find? (fun d => d.date == dt') =
        l.find? (fun d => d.date == dt')
  | [] => rfl
  | d :: rest => by
    by_cases h : d.date = dt
    · have h' : ¬ (d.date = dt') := by
        rw [h]; exact fun hh => hne hh.symm
      simp [bookSlotInDays, h, h', Ne.symm hne]
    · by_cases h2 : d.date = dt'
      · simp [bookSlotInDays, h, h2, hne]
      · simp [bookSlotInDays, h, h2, find?_bookSlotInDays_ne dt sid dt' hne rest]

theorem find?_bookSlotInDoctors_same (did dt sid : String) :
    ∀ l : List Doctor,
      (bookSlotInDoctors l did dt sid).find? (fun d => d.id == did) =
        (l.find? (fun d => d.id == did)).map
          (fun d => { d with availability := bookSlotInDays d.availability dt sid })
  | [] => rfl
  | d :: rest => by
    by_cases h : d.id = did
    · simp [bookSlotInDoctors, h]
    · simp [bookSlotInDoctors, h, find?_bookSlotInDoctors_same did dt sid rest]

theorem find?_bookSlotInDoctors_ne (did dt sid did' : String) (hne : did' ≠ did) :
    ∀ l : List Doctor,
      (bookSlotInDoctors l did dt sid).find? (fun d => d.id == did') =
        l.find? (fun d => d.id == did')
  | [] => rfl
  | d :: rest => by
    by_cases h : d.id = did
    · have h' : ¬ (d.id = did') := by
        rw [h]; exact fun hh => hne hh.symm
      simp [bookSlotInDoctors, h, h', Ne.symm hne]
    · by_cases h2 : d.id = did'
      · simp [bookSlotInDoctors, h, h2, hne]
      · simp [bookSlotInDoctors, h, h2, find?_bookSlotInDoctors_ne did dt sid did' hne rest]

/-!
## Lab-test data model (`agents/lab_test/models.py`)

`LabTest` deliberately has NO `price`, `home_collection_available` or
`turnaround_time` fields and `LabSlot` has NO `time` field: pydantic
models silently discard unknown constructor keywords, so the extra
keywords the seeder passes do not create attributes, and reading them
raises `AttributeError` — which the embedding surfaces as `PyErr`.
-/

/-- A lab centre's offering of one test. -/
structure LabOffering where
  lab_id : String
  lab_name : String
  lab_rating : ℚ
  lab_location : String
  price : ℤ
  home_collection_available : Bool
  home_collection_fee : ℤ
  turnaround_time : String
  accreditation : String
deriving DecidableEq

/-- A diagnostic test; the exact field set of `models.LabTest`. -/
structure LabTest where
  id : String
  name : String
  category : String
  sample_type : String
  fasting_required : Bool
  preparation_instructions : String
  parameters_count : ℤ
  labs_offering : List LabOffering
  rating : ℚ
  booking_count : ℤ
deriving DecidableEq

/-- A bundled test package. -/
structure LabPackage where
  id : String
  name : String
  description : String
  tests_included : List String
  original_price : ℤ
  package_price : ℤ
  savings : ℤ
  home_collection_available : Bool
  home_collection_fee : ℤ
  category : String
  popular : Bool
deriving DecidableEq

/-- A generated sample-collection slot; the exact field set of
`models.LabSlot` (note: `time_range`, not `time`). -/
structure LabSlot where
  slot_id : String
  date : String
  time_range : String
  collection_type : String
  available : Bool
  lab_name : Option String
  lab_address : Option String
deriving DecidableEq

/-!
## `LabTestDatabase.search_tests` and `recommend_package`
-/

/-- `query_lower.split('(')[0].strip() if '(' in query_lower else query_lower`. -/
def baseOf (ql : String) : String :=
  if pyHasChar ql '(' then pyStrip ((pySplitChar ql '(').headD "") else ql

/-- `query_lower.split('(')[1].split(')')[0].strip()` when both
parentheses occur in the query, else absent. -/
def abbrOf (ql : String) : Option String :=
  if pyHasChar ql '(' && pyHasChar ql ')' then
    some (pyStrip ((pySplitChar ((pySplitChar ql '(').getD 1 "") ')').headD ""))
  else none

/-- The four-way disjunction deciding whether a test matches the query
(base query in name, raw query in name, raw query in category, or a
truthy extracted abbreviation in name). -/
def labTestMatches (ql base : String) (ab : Option String) (t : LabTest) : Bool :=
  let nameL := pyLower t.name
  let catL := pyLower t.category
  isSub base nameL || isSub ql nameL || isSub ql catL ||
    (match ab with
     | none => false
     | some a => !(a == "") && isSub a nameL)

/-- The optional filter dictionary of `search_tests`; a key is modelled
as present when the `Option` is `some`. -/
structure LabFilters where
  max_price : Option ℚ
  home_collection : Option Bool
  min_rating : Option ℚ
deriving DecidableEq

/-- Embeds `LabTestDatabase.search_tests`.  The `max_price` and truthy
`home_collection` branches evaluate `t.price` / `t.home_collection_available`
on each surviving test — attributes `LabTest` does not define — so they
raise `AttributeError` unless the list is already empty. -/
def pySearchTests (tests : List LabTest) (query : String)
    (filters : Option LabFilters) : Except PyErr (List LabTest) :=
  let ql := pyLower query
  let base := baseOf ql
  let ab := abbrOf ql
  let results := tests.filter (labTestMatches ql base ab)
  let filtered : Except PyErr (List LabTest) :=
    match filters with
    | none => .ok results
    | some f =>
      let r1 : Except PyErr (List LabTest) :=
        match f.max_price with
        | none => .ok results
        | some _ =>
          if results.isEmpty then .ok []
          else .error (.attributeError "LabTest" "price")
      match r1 with
      | .error e => .error e
      | .ok l1 =>
        let r2 : Except PyErr (List LabTest) :=
          match f.home_collection with
          | some true =>
            if l1.isEmpty then .ok []
            else .error (.attributeError "LabTest" "home_collection_available")
          | _ => .ok l1
        match r2 with
        | .error e => .error e
        | .ok l2 =>
          .ok (match f.min_rating with
               | none => l2
               | some v => l2.filter (fun t => decide (v ≤ t.rating)))
  filtered.map (sortDesc (fun t => t.booking_count))

/-- `len(set(selected) & set(pkg.tests_included))`. -/
def overlapCard (selected pkgTests : List String) : ℕ :=
  ((selected.eraseDups).filter (fun x => pkgTests.contains x)).length

/-- Embeds `LabTestDatabase.recommend_package`: the first package, in
creation order, overlapping the selection in at least two test ids. -/
def recommend_package (packages : List LabPackage) (selected : List String) :
    Option LabPackage :=
  packages.find? (fun p => decide (2 ≤ overlapCard selected p.tests_included))

/-!
## Session manager (`agents/lab_test/session_manager.py`)

Wall-clock timestamps (`datetime.now().isoformat()`) enter through an
explicit `now` parameter.
-/

/-- The dictionary `LabTestAgent.add_to_cart` stores per cart entry. -/
structure CartItem where
  test_id : String
  test_name : String
  lab_id : String
  lab_name : String
  price : ℤ
  home_collection_available : Bool
  turnaround_time : String
deriving DecidableEq

/-- The dictionary recorded as `selected_slot` on booking. -/
structure SelectedSlot where
  slot_id : String
  date : String
  time : String
deriving DecidableEq

/-- One session's state dictionary. -/
structure SessionState where
  journey_step : String
  cart : List CartItem
  filters : LabFilters
  collection_method : Option String
  selected_slot : Option SelectedSlot
  booking_reference : Option String
  created_at : String
  last_updated : String
deriving DecidableEq

/-- The session store: a string-keyed dict in insertion order. -/
abbrev Sessions : Type := List (String × SessionState)

/-- `session_id in self.sessions` plus the read. -/
def lookupSession (sessions : Sessions) (sid : String) : Option SessionState :=
  ((sessions.find? (fun p => p.1 == sid))).map (fun p => p.2)

/-- Write-through of a session entry (in-place for an existing key,
appended for a new one, as for a Python dict). -/
def setSession : Sessions → String → SessionState → Sessions
  | [], sid, st => [(sid, st)]
  | (k, v) :: rest, sid, st =>
    if k == sid then (k, st) :: rest else (k, v) :: setSession rest sid st

/-- `SessionManager._create_empty_state`. -/
def create_empty_state (now : String) : SessionState :=
  { journey_step := "search", cart := [], filters := ⟨none, none, none⟩,
    collection_method := none, selected_slot := none,
    booking_reference := none, created_at := now, last_updated := now }

/-- `SessionManager.get_state`: lazily creates an empty session. -/
def sm_get_state (sessions : Sessions) (sid now : String) :
    SessionState × Sessions :=
  match lookupSession sessions sid with
  | some st => (st, sessions)
  | none =>
    let st := create_empty_state now
    (st, sessions ++ [(sid, st)])

/-- `SessionManager.add_to_cart`: a duplicate `test_id` returns the
state untouched (no timestamp, no stage change); otherwise the item is
appended and the journey stage becomes `cart`. -/
def sm_add_to_cart (sessions : Sessions) (sid : String) (item : CartItem)
    (now : String) : SessionState × Sessions :=
  let (st, ss) := sm_get_state sessions sid now
  if st.cart.any (fun i => i.test_id == item.test_id) then (st, ss)
  else
    let st' :=
      { st with cart := st.cart ++ [item], journey_step := "cart", last_updated := now }
    (st', setSession ss sid st')

/-- `SessionManager.remove_from_cart`; an emptied cart reverts the
stage to `discovery`. -/
def sm_remove_from_cart (sessions : Sessions) (sid tid now : String) :
    SessionState × Sessions :=
  let (st, ss) := sm_get_state sessions sid now
  let cart' := st.cart.filter (fun i => !(i.test_id == tid))
  let st1 := { st with cart := cart', last_updated := now }
  let st2 := if cart'.isEmpty then { st1 with journey_step := "discovery" } else st1
  (st2, setSession ss sid st2)

/-- `SessionManager.get_cart_total`. -/
def sm_get_cart_total (sessions : Sessions) (sid now : String) : ℤ :=
  let (st, _) := sm_get_state sessions sid now
  (st.cart.map (fun i => i.price)).sum

/-- `SessionManager.clear_cart`: empties the cart and resets the stage
to `discovery`. -/
def sm_clear_cart (sessions : Sessions) (sid now : String) :
    SessionState × Sessions :=
  let (st, ss) := sm_get_state sessions sid now
  let st' := { st with cart := [], journey_step := "discovery", last_updated := now }
  (st', setSession ss sid st')

/-!
## Agent layer (`agents/lab_test/agent.py`) and the availability branch
of `main.handle_lab_test_query`

`LabTestAgent.get_available_slots` and `book_tests` both read `s.time`
from a `LabSlot`.  The model defines `time_range` only (the seeder's
`time=` keyword is discarded by pydantic), so those reads raise
`AttributeError`; the embeddings return the store as it stands at the
moment of the raise.
-/

/-- The dictionary shape `get_available_slots` tries to build per slot;
no value is ever constructed, `s.time` raises first. -/
structure SlotView where
  slot_id : String
  date : String
  time : String
  lab_name : Option String
  lab_address : Option String
deriving DecidableEq

/-- `LabTestAgent.get_available_slots`: `[]` straight away on an empty
cart; otherwise the freshly generated pool `genSlots` (the `random`
draw is the caller's parameter) is formatted — raising on the first
slot's missing `time` attribute. -/
def agent_get_available_slots (sessions : Sessions) (now : String)
    (genSlots : List LabSlot) (sid : String) :
    Except PyErr (List SlotView) × Sessions :=
  let (st, ss) := sm_get_state sessions sid now
  if st.cart.isEmpty then (.ok [], ss)
  else
    match genSlots with
    | [] => (.ok [], ss)
    | _ :: _ => (.error (.attributeError "LabSlot" "time"), ss)

/-- The result dictionary of `LabTestAgent.book_tests`.  The `success`
shape is never produced: the session update preceding it evaluates
`slot.time` and raises. -/
inductive BookOutcome where
  | failure (message : String)
  | success (booking_reference : String) (tests labs : List String)
      (total_amount : ℤ) (collection_type scheduled_date scheduled_time contact : String)
deriving DecidableEq

/-- Embeds `LabTestAgent.book_tests`: empty-cart and invalid-slot
rejections, then the totals and the booking reference are computed —
and the `update_state` argument evaluates `slot.time`, raising before
any session mutation (so neither the reference is recorded nor the
cart cleared). -/
def agent_book_tests (sessions : Sessions) (now : String)
    (availSlots : List LabSlot) (sid collection_type slot_id _user_name _contact : String)
    (_address : Option String) : Except PyErr BookOutcome × Sessions :=
  let (st, ss) := sm_get_state sessions sid now
  if st.cart.isEmpty then (.ok (.failure "Cart is empty"), ss)
  else
    match availSlots.find? (fun s => s.slot_id == slot_id) with
    | none => (.ok (.failure "Invalid slot"), ss)
    | some _slot =>
      let cart_total := sm_get_cart_total ss sid now
      let _total :=
        if collection_type == "home" then
          cart_total + 50 * ((st.cart.filter (fun i => i.home_collection_available)).length : ℤ)
        else cart_total
      let _booking_ref := "BK" ++ now
      (.error (.attributeError "LabSlot" "time"), ss)

/-- The dictionary `LabTestAgent.view_cart` returns. -/
structure CartView where
  cart : List CartItem
  cart_total : ℤ
  cart_count : ℕ
deriving DecidableEq

/-- `LabTestAgent.view_cart`. -/
def agent_view_cart (sessions : Sessions) (sid now : String) :
    CartView × Sessions :=
  let (st, ss) := sm_get_state sessions sid now
  ({ cart := st.cart, cart_total := sm_get_cart_total ss sid now,
     cart_count := st.cart.length }, ss)

/-- The `data` payload attached to an availability response. -/
inductive RespData where
  | labSlots (slots : List SlotView) (cart : CartView)
deriving DecidableEq

/-- `ChatResponse` of `main.py` (`data` defaults to `None`). -/
structure ChatResponse where
  type : String
  message : String
  data : Option RespData
deriving DecidableEq

/-- The (unreachable) slot-offer text of the availability branch,
abbreviated to its counts; only the reachable rejection strings are
modelled verbatim. -/
def availMsg (cv : CartView) : String :=
  "Available Slots for " ++ toString cv.cart_count ++ " test(s), total " ++
    toString cv.cart_total

/-- Embeds the `intent_type == "availability"` branch of
`main.handle_lab_test_query`: view the cart, reject when it is empty,
otherwise query the agent for slots. -/
def handle_availability (sessions : Sessions) (now : String)
    (genSlots : List LabSlot) (sid : String) :
    Except PyErr ChatResponse × Sessions :=
  let (cart_data, ss) := agent_view_cart sessions sid now
  if cart_data.cart.isEmpty then
    (.ok { type := "chat",
           message := "Your cart is empty. Add tests before checking availability!",
           data := none }, ss)
  else
    match agent_get_available_slots ss now genSlots sid with
    | (.error e, ss') => (.error e, ss')
    | (.ok slots, ss') =>
      if slots.isEmpty then
        (.ok { type := "chat",
               message := "No slots available currently. Please try again later.",
               data := none }, ss')
      else
        (.ok { type := "lab_slots", message := availMsg cart_data,
               data := some (.labSlots slots cart_data) }, ss')

/-- C6: for distances `≥ 0` and ratings in `[0,5]`,
`calculate_relevance_score` is non-increasing in distance,
non-decreasing in rating, always lands in `[0,1]`, and equals the
0.4/0.3/0.3-weighted sum (distance component saturating at 10 km)
rounded to two decimals. -/
theorem relevance_score_monotone_bounded
    (d d1 d2 r r1 r2 : ℚ) (a : Bool)
    (hd : 0 ≤ d) (hd10 : 0 ≤ d1) (hd12 : d1 ≤ d2)
    (hr0 : 0 ≤ r) (hr5 : r ≤ 5)
    (hr10 : 0 ≤ r1) (hr12 : r1 ≤ r2) (hr25 : r2 ≤ 5) :
    calculate_relevance_score d2 r a ≤ calculate_relevance_score d1 r a ∧
    calculate_relevance_score d r1 a ≤ calculate_relevance_score d r2 a ∧
    0 ≤ calculate_relevance_score d r a ∧ calculate_relevance_score d r a ≤ 1 ∧
    calculate_relevance_score d r a =
      round2 (max 0 (10 - d) / 10 * (4/10) + r / 5 * (3/10) +
        (if a then (1:ℚ) else 0) * (3/10)) := by
  have havail0 : (0:ℚ) ≤ (if a then (1:ℚ) else 0) := by
    cases a <;> norm_num
  have havail1 : (if a then (1:ℚ) else 0) ≤ 1 := by
    cases a <;> norm_num
  have hraw : ∀ dd rr : ℚ, 0 ≤ dd → 0 ≤ rr → rr ≤ 5 →
      0 ≤ max 0 (10 - dd) / 10 * (4/10) + rr / 5 * (3/10) +
        (if a then (1:ℚ) else 0) * (3/10) ∧
      max 0 (10 - dd) / 10 * (4/10) + rr / 5 * (3/10) +
        (if a then (1:ℚ) else 0) * (3/10) ≤ 1 := by
    intro dd rr hdd hrr0 hrr5
    have hm0 : (0:ℚ) ≤ max 0 (10 - dd) := le_max_left _ _
    have hm10 : max 0 (10 - dd) ≤ 10 := max_le (by norm_num) (by linarith)
    constructor <;> nlinarith [havail0, havail1]
  refine ⟨?_, ?_, ?_, ?_, rfl⟩
  · apply round2_mono
    have hmax : max 0 (10 - d2) ≤ max 0 (10 - d1) :=
      max_le_max le_rfl (by linarith)
    nlinarith [hmax]
  · apply round2_mono
    nlinarith
  · exact (round2_range (hraw d r hd hr0 hr5).1 (hraw d r hd hr0 hr5).2).1
  · exact (round2_range (hraw d r hd hr0 hr5).1 (hraw d r hd hr0 hr5).2).2

/-- Concrete instance of `relevance_score_monotone_bounded` at
`d1 = 1, d2 = 2, r1 = 3, r2 = 4`, availability `true`. -/
theorem relevance_score_monotone_bounded_witness :
    calculate_relevance_score 2 4 true ≤ calculate_relevance_score 1 4 true ∧
    calculate_relevance_score 1 3 true ≤ calculate_relevance_score 1 4 true ∧
    0 ≤ calculate_relevance_score 1 4 true ∧ calculate_relevance_score 1 4 true ≤ 1 ∧
    calculate_relevance_score 1 4 true =
      round2 (max 0 (10 - 1) / 10 * (4/10) + 4 / 5 * (3/10) +
        (if true then (1:ℚ) else 0) * (3/10)) :=
  relevance_score_monotone_bounded 1 1 2 4 3 4 true (by norm_num) (by norm_num)
    (by norm_num) (by norm_num) (by norm_num) (by norm_num) (by norm_num) (by norm_num)

/-- C8: `recommend_package` yields `none` exactly when no package
overlaps the selection in two or more test ids, and otherwise yields
the first qualifying package in creation order — regardless of any
later package's overlap size or discount. -/
theorem recommend_package_first_match (packages : List LabPackage)
    (selected : List String) :
    (recommend_package packages selected = none ↔
      ∀ p ∈ packages, overlapCard selected p.tests_included < 2) ∧
    (∀ p, recommend_package packages selected = some p →
      p ∈ packages ∧ 2 ≤ overlapCard selected p.tests_included) ∧
    (∀ l1 p l2, packages = l1 ++ p :: l2 →
      (∀ q ∈ l1, overlapCard selected q.tests_included < 2) →
      2 ≤ overlapCard selected p.tests_included →
      recommend_package packages selected = some p) := by
  refine ⟨?_, ?_, ?_⟩
  · simp [recommend_package, List.find?_eq_none, Nat.lt_iff_add_one_le, Nat.not_le]
  · intro p hp
    exact ⟨List.mem_of_find?_eq_some hp,
      by simpa using List.find?_some hp⟩
  · intro l1 p l2 hsplit hfail hp
    subst hsplit
    induction l1 with
    | nil =>
      simp [recommend_package, List.find?_cons_of_pos, hp]
    | cons q l1' ih =>
      have hq := hfail q (List.mem_cons_self q l1')
      have ih' := ih (fun x hx => hfail x (List.mem_cons_of_mem _ hx))
      simpa [recommend_package, List.find?_cons_of_neg, Nat.not_le.mpr hq] using ih'

/-- First witness package: overlaps the selection in exactly 2 ids. -/
def pkgW1 : LabPackage :=
  { id := "pkg_001", name := "Pack One", description := "first",
    tests_included := ["t1", "t2", "x9"], original_price := 1000,
    package_price := 800, savings := 200, home_collection_available := true,
    home_collection_fee := 50, category := "Health Checkup", popular := true }

/-- Second witness package: later in creation order, larger overlap
and larger savings. -/
def pkgW2 : LabPackage :=
  { id := "pkg_002", name := "Pack Two", description := "second",
    tests_included := ["t1", "t2", "t3", "t4"], original_price := 2000,
    package_price := 1200, savings := 800, home_collection_available := true,
    home_collection_fee := 50, category := "Health Checkup", popular := true }

/-- Concrete instance of `recommend_package_first_match`: both packages
qualify, the later one with the larger overlap and savings, and the
first still wins. -/
theorem recommend_package_first_match_witness :
    recommend_package [pkgW1, pkgW2] ["t1", "t2", "t3", "t4"] = some pkgW1 ∧
    2 ≤ overlapCard ["t1", "t2", "t3", "t4"] pkgW2.tests_included ∧
    pkgW1.savings < pkgW2.savings :=
  ⟨(recommend_package_first_match [pkgW1, pkgW2] ["t1", "t2", "t3", "t4"]).2.2
      [] pkgW1 [pkgW2] rfl (by simp) (by decide),
    by decide, by decide⟩

/-- The test ids present in a session's cart. -/
def cartTestIds (st : SessionState) : List String :=
  st.cart.map (fun i => i.test_id)

theorem sm_get_state_of_mem {sessions : Sessions} {sid : String}
    {st : SessionState} (hst : lookupSession sessions sid = some st) (now : String) :
    sm_get_state sessions sid now = (st, sessions) := by
  simp [sm_get_state, hst]

/-- C7: adding a cart item whose `test_id` is already in the cart is a
complete no-op (the state, including the first entry's lab and price,
and the whole store are returned untouched), and the at-most-one-entry-
per-test-id invariant is preserved by add, remove and clear, and holds
of a freshly created session. -/
theorem add_to_cart_first_wins (sessions : Sessions) (sid : String)
    (item : CartItem) (tid now : String) (st : SessionState)
    (hst : lookupSession sessions sid = some st)
    (hnodup : (cartTestIds st).Nodup) :
    (item.test_id ∈ cartTestIds st →
      sm_add_to_cart sessions sid item now = (st, sessions)) ∧
    (cartTestIds (sm_add_to_cart sessions sid item now).1).Nodup ∧
    (cartTestIds (sm_remove_from_cart sessions sid tid now).1).Nodup ∧
    (cartTestIds (sm_clear_cart sessions sid now).1).Nodup ∧
    (cartTestIds (create_empty_state now)).Nodup := by
  have hget := sm_get_state_of_mem hst now
  have hdup : (st.cart.any (fun i => i.test_id == item.test_id)) = true ↔
      item.test_id ∈ cartTestIds st := by
    simp [List.any_eq_true, cartTestIds]
  refine ⟨?_, ?_, ?_, ?_, by simp [cartTestIds, create_empty_state]⟩
  · intro hmem
    simp [sm_add_to_cart, hget, hdup.mpr hmem]
  · by_cases hmem : item.test_id ∈ cartTestIds st
    · simp [sm_add_to_cart, hget, hdup.mpr hmem, hnodup]
    · have hany : (st.cart.any (fun i => i.test_id == item.test_id)) = false := by
        rw [← Bool.not_eq_true, hdup]
        exact hmem
      simp only [sm_add_to_cart, hget, hany, Bool.false_eq_true, if_false]
      simp only [cartTestIds, List.map_append, List.map_cons, List.map_nil]
      rw [List.nodup_append]
      exact ⟨hnodup, List.nodup_singleton _,
        by simpa [List.disjoint_singleton, cartTestIds] using hmem⟩
  · simp only [sm_remove_from_cart, hget]
    split <;>
    · simp only [cartTestIds]
      exact hnodup.sublist (List.Sublist.map _ (List.filter_sublist _))
  · simp [sm_clear_cart, hget, cartTestIds]

/-- A session whose cart already holds test `t1`. -/
def c7Item : CartItem :=
  { test_id := "t1", test_name := "Complete Blood Count", lab_id := "lab_001",
    lab_name := "Ruby Hall Clinic", price := 400,
    home_collection_available := true, turnaround_time := "24 hours" }

/-- The same test offered by a different lab at a different price. -/
def c7Item' : CartItem :=
  { test_id := "t1", test_name := "Complete Blood Count", lab_id := "lab_002",
    lab_name := "CityCare Labs", price := 350,
    home_collection_available := false, turnaround_time := "48 hours" }

/-- A concrete session state with a one-item cart. -/
def c7State : SessionState :=
  { journey_step := "cart", cart := [c7Item], filters := ⟨none, none, none⟩,
    collection_method := none, selected_slot := none,
    booking_reference := none, created_at := "t0", last_updated := "t0" }

/-- Concrete instance of `add_to_cart_first_wins`: re-adding test `t1`
from another lab leaves the session and the store untouched. -/
theorem add_to_cart_first_wins_witness :
    (c7Item'.test_id ∈ cartTestIds c7State →
      sm_add_to_cart [("s1", c7State)] "s1" c7Item' "t1" = (c7State, [("s1", c7State)])) ∧
    (cartTestIds (sm_add_to_cart [("s1", c7State)] "s1" c7Item' "t1").1).Nodup ∧
    (cartTestIds (sm_remove_from_cart [("s1", c7State)] "s1" "t1" "t1").1).Nodup ∧
    (cartTestIds (sm_clear_cart [("s1", c7State)] "s1" "t1").1).Nodup ∧
    (cartTestIds (create_empty_state "t1")).Nodup :=
  add_to_cart_first_wins [("s1", c7State)] "s1" c7Item' "t1" "t1" c7State
    (by decide) (by decide)

/-- C9: on a session whose cart is empty, the availability intent is
rejected with the cart-empty chat message, carries no slot payload
(`data = none`), leaves the session store exactly as it was, and the
result does not depend on the generated slot pool (slots are only
queried for a non-empty cart). -/
theorem availability_empty_cart_rejected (sessions : Sessions)
    (sid now : String) (genSlots : List LabSlot) (st : SessionState)
    (hst : lookupSession sessions sid = some st)
    (hempty : st.cart = []) :
    handle_availability sessions now genSlots sid =
      (.ok { type := "chat",
             message := "Your cart is empty. Add tests before checking availability!",
             data := none }, sessions) := by
  have hget := sm_get_state_of_mem hst now
  simp [handle_availability, agent_view_cart, hget, hempty]

/-- A session with an empty cart sitting at the discovery stage. -/
def c9State : SessionState :=
  { journey_step := "discovery", cart := [], filters := ⟨none, none, none⟩,
    collection_method := none, selected_slot := none,
    booking_reference := none, created_at := "t0", last_updated := "t0" }

/-- A generated collection slot (exactly the `LabSlot` fields). -/
def c9Slot : LabSlot :=
  { slot_id := "home_2025-10-13_06:00", date := "2025-10-13",
    time_range := "7:00 AM", collection_type := "home_collection",
    available := true, lab_name := none, lab_address := none }

/-- Concrete instance of `availability_empty_cart_rejected`, with a
non-empty generated pool to show it is not consulted. -/
theorem availability_empty_cart_rejected_witness :
    handle_availability [("s1", c9State)] "t1" [c9Slot] "s1" =
      (.ok { type := "chat",
             message := "Your cart is empty. Add tests before checking availability!",
             data := none }, [("s1", c9State)]) :=
  availability_empty_cart_rejected [("s1", c9State)] "s1" "t1" [c9Slot] c9State
    (by decide) (by decide)

/-- A cart item as stored by `add_to_cart` (for the booking claim). -/
def c2Item : CartItem :=
  { test_id := "test_blood_001", test_name := "Complete Blood Count",
    lab_id := "lab_001", lab_name := "Ruby Hall Clinic", price := 400,
    home_collection_available := true, turnaround_time := "24 hours" }

/-- A session mid-journey with one test in the cart. -/
def c2State : SessionState :=
  { journey_step := "cart", cart := [c2Item], filters := ⟨none, none, none⟩,
    collection_method := none, selected_slot := none,
    booking_reference := none, created_at := "t0", last_updated := "t0" }

/-- The session as `update_state` would have left it had the booking
update succeeded (stage `post_booking`, reference recorded). -/
def c2StatePost : SessionState :=
  { c2State with journey_step := "post_booking", booking_reference := some "BK20251012" }

/-- C2 (failing run): with a non-empty cart and a slot id that resolves
in the generated pool, `book_tests` raises `AttributeError` on
`slot.time` before `update_state` runs — no booking reference or slot
is recorded, the stage is untouched and the cart is NOT cleared.
Moreover, were that read repaired, the trailing `clear_cart` would
still reset the journey stage to `discovery`, not `post_booking`. -/
theorem book_tests_attribute_error :
    agent_book_tests [("s1", c2State)] "t1" [c9Slot] "s1" "home"
        "home_2025-10-13_06:00" "Alice" "9990001111" none =
      (.error (.attributeError "LabSlot" "time"), [("s1", c2State)]) ∧
    (sm_clear_cart [("s1", c2StatePost)] "s1" "t2").1.journey_step = "discovery" := by
  exact ⟨rfl, rfl⟩

/-- A representative seeded blood-test offering (price 400 at one lab). -/
def cbcOffering : LabOffering :=
  { lab_id := "lab_001", lab_name := "Ruby Hall Clinic", lab_rating := 24/5,
    lab_location := "Pune Central", price := 400,
    home_collection_available := true, home_collection_fee := 0,
    turnaround_time := "24 hours", accreditation := "NABL" }

/-- A representative seeded blood test (exactly the `LabTest` fields —
in particular, no `price` attribute). -/
def cbcTest : LabTest :=
  { id := "test_blood_001", name := "Complete Blood Count",
    category := "Blood Tests", sample_type := "Blood",
    fasting_required := false,
    preparation_instructions := "No special preparation",
    parameters_count := 25, labs_offering := [cbcOffering],
    rating := 24/5, booking_count := 500 }

/-- C4 (failing run): the query matches the test and every lab offering
is within the 1000-rupee budget, yet `search_tests` with a `max_price`
filter raises `AttributeError` — the comprehension reads `t.price`, an
attribute `LabTest` does not define — instead of filtering on the
minimum offering price; without the filter the same call returns the
test. -/
theorem search_tests_max_price_attribute_error :
    pySearchTests [cbcTest] "blood" (some ⟨some 1000, none, none⟩) =
      .error (.attributeError "LabTest" "price") ∧
    pySearchTests [cbcTest] "blood" none = .ok [cbcTest] ∧
    cbcTest.labs_offering.all (fun o => decide (o.price ≤ 1000)) = true := by
  exact ⟨rfl, rfl, rfl⟩

theorem slotLookup_update_same (docs : List Doctor) (appts : List Appointment)
    (did dt sid : String) (doc : Doctor) (day : DayAvailability) (slot : Slot)
    (h1 : docs.find? (fun d => d.id == did) = some doc)
    (h2 : doc.availability.find? (fun d => d.date == dt) = some day)
    (h3 : day.slots.find? (fun s => s.slot_id == sid) = some slot) :
    slotLookup ⟨bookSlotInDoctors docs did dt sid, appts⟩ did dt sid =
      some { slot with is_booked := true } := by
  simp only [slotLookup, findDoctor, find?_bookSlotInDoctors_same, h1,
    Option.map_some', Option.some_bind]
  simp only [findDay, find?_bookSlotInDays_same, h2,
    Option.map_some', Option.some_bind]
  simp only [findSlot, find?_bookSlotInSlots_same, h3,
    Option.map_some', Option.some_bind]

theorem slotLookup_update_ne (docs : List Doctor) (appts : List Appointment)
    (did dt sid did' dt' sid' : String)
    (hdiff : ¬ (did' = did ∧ dt' = dt ∧ sid' = sid)) :
    slotLookup ⟨bookSlotInDoctors docs did dt sid, appts⟩ did' dt' sid' =
      slotLookup ⟨docs, appts⟩ did' dt' sid' := by
  by_cases hdid : did' = did
  · subst hdid
    simp only [slotLookup, findDoctor, find?_bookSlotInDoctors_same]
    cases hfd : docs.find? (fun d => d.id == did') with
    | none => simp
    | some doc =>
      simp only [Option.map_some', Option.some_bind]
      by_cases hdt : dt' = dt
      · subst hdt
        have hsid : sid' ≠ sid := fun h => hdiff ⟨rfl, rfl, h⟩
        simp only [findDay, find?_bookSlotInDays_same]
        cases hfday : doc.availability.find? (fun d => d.date == dt') with
        | none => simp
        | some day =>
          simp only [Option.map_some', Option.some_bind, findSlot,
            find?_bookSlotInSlots_ne sid sid' hsid]
      · simp only [findDay, find?_bookSlotInDays_ne dt sid dt' hdt]
  · simp only [slotLookup, findDoctor,
      find?_bookSlotInDoctors_ne did dt sid did' hdid]

/-- C3: `book_slot` applies its checks in order — absent provider,
then no matching day, then no matching slot, then consumed flag — and
each error outcome returns the corresponding message with the store
(slot grids and appointments) exactly as before; only the success
branch books the addressed slot and appends exactly one appointment,
leaving every other slot lookup unchanged. -/
theorem book_slot_checks_in_order (db : MockDB) (did dt sid pid : String) :
    (findDoctor db did = none →
      book_slot db did dt sid pid = (.error "Doctor not found", db)) ∧
    (∀ doc, findDoctor db did = some doc → findDay doc dt = none →
      book_slot db did dt sid pid = (.error "Date not available", db)) ∧
    (∀ doc day, findDoctor db did = some doc → findDay doc dt = some day →
      findSlot day sid = none →
      book_slot db did dt sid pid = (.error "Slot not found", db)) ∧
    (∀ doc day slot, findDoctor db did = some doc → findDay doc dt = some day →
      findSlot day sid = some slot → slot.is_booked = true →
      book_slot db did dt sid pid = (.error "Slot already booked", db)) ∧
    (∀ doc day slot, findDoctor db did = some doc → findDay doc dt = some day →
      findSlot day sid = some slot → slot.is_booked = false →
      (book_slot db did dt sid pid).1 =
        .success ("appt_" ++ toString (db.appointments.length + 1))
          ("Booked with " ++ doc.name) ∧
      (book_slot db did dt sid pid).2.appointments = db.appointments ++
        [{ appointment_id := "appt_" ++ toString (db.appointments.length + 1),
           doctor_id := did, patient_id := pid, slot_id := sid, date := dt,
           type := "in_clinic", status := "confirmed" }] ∧
      slotLookup (book_slot db did dt sid pid).2 did dt sid =
        some { slot with is_booked := true } ∧
      (∀ did' dt' sid', ¬ (did' = did ∧ dt' = dt ∧ sid' = sid) →
        slotLookup (book_slot db did dt sid pid).2 did' dt' sid' =
          slotLookup db did' dt' sid')) := by
  refine ⟨?_, ?_, ?_, ?_, ?_⟩
  · intro h; simp [book_slot, h]
  · intro doc h1 h2; simp [book_slot, h1, h2]
  · intro doc day h1 h2 h3; simp [book_slot, h1, h2, h3]
  · intro doc day slot h1 h2 h3 h4; simp [book_slot, h1, h2, h3, h4]
  · intro doc day slot h1 h2 h3 h4
    have hdb2 : (book_slot db did dt sid pid).2 =
        ⟨bookSlotInDoctors db.doctors did dt sid, db.appointments ++
          [{ appointment_id := "appt_" ++ toString (db.appointments.length + 1),
             doctor_id := did, patient_id := pid, slot_id := sid, date := dt,
             type := "in_clinic", status := "confirmed" }]⟩ := by
      simp [book_slot, h1, h2, h3, h4]
    refine ⟨by simp [book_slot, h1, h2, h3, h4], by rw [hdb2], ?_, ?_⟩
    · rw [hdb2]
      exact slotLookup_update_same db.doctors _ did dt sid doc day slot h1 h2 h3
    · intro did' dt' sid' hdiff
      rw [hdb2, slotLookup_update_ne db.doctors _ did dt sid did' dt' sid' hdiff]
      rfl

/-- An unconsumed morning slot of the witness grid. -/
def wSlot0 : Slot :=
  { slot_id := "slot_0_0", start_time := "10:00", end_time := "10:30",
    is_booked := false }

/-- An already-consumed slot of the witness grid. -/
def wSlot1 : Slot :=
  { slot_id := "slot_0_1", start_time := "11:00", end_time := "11:30",
    is_booked := true }

/-- A one-day witness availability grid. -/
def wDay : DayAvailability := { date := "2025-10-12", slots := [wSlot0, wSlot1] }

/-- A concrete provider record. -/
def wDoc : Doctor :=
  { id := "doc_001", name := "Dr. Demo (1)", specialty := "Cardiologist",
    rating := 9/2, fees := { online := 500, in_clinic := 1000 },
    availability := [wDay] }

/-- A store holding the witness provider and no appointments. -/
def wdb : MockDB := { doctors := [wDoc], appointments := [] }

/-- Concrete instance of `book_slot_checks_in_order`: each failure
condition at the witness store, plus the success outcome on the free
slot. -/
theorem book_slot_checks_in_order_witness :
    book_slot wdb "doc_999" "2025-10-12" "slot_0_0" "p1" =
      (.error "Doctor not found", wdb) ∧
    book_slot wdb "doc_001" "2025-12-31" "slot_0_0" "p1" =
      (.error "Date not available", wdb) ∧
    book_slot wdb "doc_001" "2025-10-12" "slot_9_9" "p1" =
      (.error "Slot not found", wdb) ∧
    book_slot wdb "doc_001" "2025-10-12" "slot_0_1" "p1" =
      (.error "Slot already booked", wdb) ∧
    (book_slot wdb "doc_001" "2025-10-12" "slot_0_0" "p1").1 =
      .success ("appt_" ++ toString (wdb.appointments.length + 1))
        ("Booked with " ++ wDoc.name) :=
  ⟨(book_slot_checks_in_order wdb "doc_999" "2025-10-12" "slot_0_0" "p1").1
      (by rfl),
   (book_slot_checks_in_order wdb "doc_001" "2025-12-31" "slot_0_0" "p1").2.1
      wDoc (by rfl) (by rfl),
   (book_slot_checks_in_order wdb "doc_001" "2025-10-12" "slot_9_9" "p1").2.2.1
      wDoc wDay (by rfl) (by rfl) (by rfl),
   (book_slot_checks_in_order wdb "doc_001" "2025-10-12" "slot_0_1" "p1").2.2.2.1
      wDoc wDay wSlot1 (by rfl) (by rfl) (by rfl) (by rfl),
   ((book_slot_checks_in_order wdb "doc_001" "2025-10-12" "slot_0_0" "p1").2.2.2.2
      wDoc wDay wSlot0 (by rfl) (by rfl) (by rfl) (by rfl)).1⟩

/-- C1: booking an unconsumed slot twice (in a store whose next
sequential appointment id is unused): the first call succeeds with that
fresh id, the second call fails with the already-booked error and
mutates nothing, and after either call the addressed slot's
`is_booked` flag is `true`. -/
theorem book_slot_double_booking (db : MockDB) (did dt sid pid pid2 : String)
    (slot : Slot)
    (hslot : slotLookup db did dt sid = some slot)
    (hfree : slot.is_booked = false)
    (hfresh : ("appt_" ++ toString (db.appointments.length + 1)) ∉
      db.appointments.map (fun a => a.appointment_id)) :
    (∃ aid msg, (book_slot db did dt sid pid).1 = .success aid msg ∧
      aid ∉ db.appointments.map (fun a => a.appointment_id)) ∧
    (book_slot (book_slot db did dt sid pid).2 did dt sid pid2).1 =
      .error "Slot already booked" ∧
    (book_slot (book_slot db did dt sid pid).2 did dt sid pid2).2 =
      (book_slot db did dt sid pid).2 ∧
    slotLookup (book_slot db did dt sid pid).2 did dt sid =
      some { slot with is_booked := true } := by
  rw [slotLookup] at hslot
  obtain ⟨doc, hfd, hrest⟩ := Option.bind_eq_some.mp hslot
  obtain ⟨day, hfday, hfs⟩ := Option.bind_eq_some.mp hrest
  have h1' : db.doctors.find? (fun d => d.id == did) = some doc := hfd
  have h2' : doc.availability.find? (fun d => d.date == dt) = some day := hfday
  have h3' : day.slots.find? (fun s => s.slot_id == sid) = some slot := hfs
  have hfd' : findDoctor db did = some doc := hfd
  have hfday' : findDay doc dt = some day := hfday
  have hfs' : findSlot day sid = some slot := hfs
  have hdb1 : (book_slot db did dt sid pid).2 =
      ⟨bookSlotInDoctors db.doctors did dt sid, db.appointments ++
        [{ appointment_id := "appt_" ++ toString (db.appointments.length + 1),
           doctor_id := did, patient_id := pid, slot_id := sid, date := dt,
           type := "in_clinic", status := "confirmed" }]⟩ := by
    simp [book_slot, hfd', hfday', hfs', hfree]
  have hsecond : book_slot (book_slot db did dt sid pid).2 did dt sid pid2 =
      (.error "Slot already booked", (book_slot db did dt sid pid).2) := by
    conv_lhs => rw [hdb1]
    conv_rhs => rw [hdb1]
    simp only [book_slot, findDoctor, findDay, findSlot,
      find?_bookSlotInDoctors_same, find?_bookSlotInDays_same,
      find?_bookSlotInSlots_same, h1', h2', h3', Option.map_some']
    simp
  refine ⟨⟨"appt_" ++ toString (db.appointments.length + 1),
      "Booked with " ++ doc.name, by simp [book_slot, hfd', hfday', hfs', hfree],
      hfresh⟩, ?_, ?_, ?_⟩
  · rw [hsecond]
  · rw [hsecond]
  · rw [hdb1]
    exact slotLookup_update_same db.doctors _ did dt sid doc day slot h1' h2' h3'

/-- Concrete instance of `book_slot_double_booking` on the witness
store: first booking of `slot_0_0` succeeds with the fresh id, the
repeat is rejected, nothing further mutates, and the flag stays set. -/
theorem book_slot_double_booking_witness :
    (∃ aid msg, (book_slot wdb "doc_001" "2025-10-12" "slot_0_0" "p1").1 =
        .success aid msg ∧
      aid ∉ wdb.appointments.map (fun a => a.appointment_id)) ∧
    (book_slot (book_slot wdb "doc_001" "2025-10-12" "slot_0_0" "p1").2
        "doc_001" "2025-10-12" "slot_0_0" "p2").1 =
      .error "Slot already booked" ∧
    (book_slot (book_slot wdb "doc_001" "2025-10-12" "slot_0_0" "p1").2
        "doc_001" "2025-10-12" "slot_0_0" "p2").2 =
      (book_slot wdb "doc_001" "2025-10-12" "slot_0_0" "p1").2 ∧
    slotLookup (book_slot wdb "doc_001" "2025-10-12" "slot_0_0" "p1").2
        "doc_001" "2025-10-12" "slot_0_0" =
      some { wSlot0 with is_booked := true } :=
  book_slot_double_booking wdb "doc_001" "2025-10-12" "slot_0_0" "p1" "p2"
    wSlot0 (by rfl) (by rfl) (by simp [wdb])

/-- C5: under a well-formed store (every doctor has a non-empty grid,
as the seeder guarantees), `search_doctors` returns exactly the doctors
passing the query gate (empty query, or case-insensitive substring of
specialty or name) and the filter exclusions, each enriched with the
score computed from distance, rating and day-0 availability, sorted by
score descending with ties kept in the store's insertion order. -/
theorem search_doctors_spec (dist : Doctor → ℚ) (db : MockDB) (query : String)
    (f : DocFilters) (hwf : ∀ d ∈ db.doctors, d.availability ≠ []) :
    ∃ res, search_doctors dist db query f = .ok res ∧
      (∀ e, e ∈ res ↔ ∃ d ∈ db.doctors,
        (query = "" ∨ isSub (pyLower query) (pyLower d.specialty) = true ∨
          isSub (pyLower query) (pyLower d.name) = true) ∧
        passesFilters f d = true ∧
        e = mkSearchEntry dist d) ∧
      res.Pairwise (fun a b => b.score ≤ a.score) ∧
      (∀ s : ℚ, res.filter (fun e => decide (e.score = s)) =
        ((db.doctors.filter
            (fun d => passesQuery query d && passesFilters f d)).map
          (mkSearchEntry dist)).filter (fun e => decide (e.score = s))) := by
  have hq : ∀ d : Doctor, passesQuery query d = true ↔
      (query = "" ∨ isSub (pyLower query) (pyLower d.specialty) = true ∨
        isSub (pyLower query) (pyLower d.name) = true) := by
    intro d
    by_cases h : query = ""
    · simp [passesQuery, h]
    · simp [passesQuery, h]
  have hco := collectEntries_ok dist query f db.doctors hwf
  refine ⟨sortDesc (fun e => e.score)
      ((db.doctors.filter (fun d => passesQuery query d && passesFilters f d)).map
        (mkSearchEntry dist)), ?_, ?_, ?_, ?_⟩
  · rw [search_doctors, hco]
    rfl
  · intro e
    have hperm := sortDesc_perm (fun e : SearchEntry => e.score)
      ((db.doctors.filter (fun d => passesQuery query d && passesFilters f d)).map
        (mkSearchEntry dist))
    rw [hperm.mem_iff]
    simp only [List.mem_map, List.mem_filter, Bool.and_eq_true]
    constructor
    · rintro ⟨d, ⟨hdmem, hq', hf'⟩, heq⟩
      exact ⟨d, hdmem, (hq d).mp hq', hf', heq.symm⟩
    · rintro ⟨d, hdmem, hq', hf', heq⟩
      exact ⟨d, ⟨hdmem, (hq d).mpr hq', hf'⟩, heq.symm⟩
  · exact sortDesc_sorted _ _
  · intro s
    exact sortDesc_filter_eq _ s _

/-- Concrete instance of `search_doctors_spec` on the witness store
with the query `"card"` (a substring of `Cardiologist`). -/
theorem search_doctors_spec_witness :
    ∃ res, search_doctors (fun _ => 1) wdb "card" ⟨none, none⟩ = .ok res ∧
      (∀ e, e ∈ res ↔ ∃ d ∈ wdb.doctors,
        ("card" = "" ∨ isSub (pyLower "card") (pyLower d.specialty) = true ∨
          isSub (pyLower "card") (pyLower d.name) = true) ∧
        passesFilters ⟨none, none⟩ d = true ∧
        e = mkSearchEntry (fun _ => 1) d) ∧
      res.Pairwise (fun a b => b.score ≤ a.score) ∧
      (∀ s : ℚ, res.filter (fun e => decide (e.score = s)) =
        ((wdb.doctors.filter
            (fun d => passesQuery "card" d && passesFilters ⟨none, none⟩ d)).map
          (mkSearchEntry (fun _ => 1))).filter (fun e => decide (e.score = s))) :=
  search_doctors_spec (fun _ => 1) wdb "card" ⟨none, none⟩
    (by simp [wdb, wDoc])

/-- C10: the `max_fees` exclusion reads only the in-clinic fee (any
change to the online fee changes nothing), and a zero value for
`max_fees` or `min_rating` is falsy, disabling that exclusion for every
doctor — so filters of `{max_fees: 0, min_rating: 0}` search exactly
like no filters at all. -/
theorem search_doctors_fee_truthiness (f : DocFilters) (d : Doctor) (v : ℕ)
    (dist : Doctor → ℚ) (db : MockDB) (query : String) :
    feeExcludes f { d with fees := { d.fees with online := v } } = feeExcludes f d ∧
    passesFilters f { d with fees := { d.fees with online := v } } = passesFilters f d ∧
    (f.max_fees = some 0 → feeExcludes f d = false) ∧
    (f.min_rating = some 0 → ratingExcludes f d = false) ∧
    search_doctors dist db query ⟨some 0, some 0⟩ =
      search_doctors dist db query ⟨none, none⟩ := by
  have hfee : feeExcludes f { d with fees := { d.fees with online := v } } =
      feeExcludes f d := by
    cases hmf : f.max_fees <;> simp [feeExcludes, hmf]
  have hrate : ratingExcludes f { d with fees := { d.fees with online := v } } =
      ratingExcludes f d := by
    cases hmr : f.min_rating <;> simp [ratingExcludes, hmr]
  have hpf : ∀ dd : Doctor, passesFilters ⟨some 0, some 0⟩ dd =
      passesFilters ⟨none, none⟩ dd := by
    intro dd
    simp [passesFilters, feeExcludes, ratingExcludes]
  have hce : ∀ l : List Doctor,
      collectEntries dist query ⟨some 0, some 0⟩ l =
        collectEntries dist query ⟨none, none⟩ l := by
    intro l
    induction l with
    | nil => rfl
    | cons dd rest ih => simp [collectEntries, hpf, ih]
  refine ⟨hfee, ?_, ?_, ?_, ?_⟩
  · rw [passesFilters, passesFilters, hfee, hrate]
  · intro h
    simp [feeExcludes, h]
  · intro h
    simp [ratingExcludes, h]
  · rw [search_doctors, search_doctors, hce db.doctors]

/-- Concrete instance of `search_doctors_fee_truthiness` with both
zero-valued filters on the witness store. -/
theorem search_doctors_fee_truthiness_witness :
    feeExcludes ⟨some 0, some 0⟩
        { wDoc with fees := { wDoc.fees with online := 400 } } =
      feeExcludes ⟨some 0, some 0⟩ wDoc ∧
    passesFilters ⟨some 0, some 0⟩
        { wDoc with fees := { wDoc.fees with online := 400 } } =
      passesFilters ⟨some 0, some 0⟩ wDoc ∧
    ((some 0 : Option ℚ) = some 0 →
      feeExcludes ⟨some 0, some 0⟩ wDoc = false) ∧
    ((some 0 : Option ℚ) = some 0 →
      ratingExcludes ⟨some 0, some 0⟩ wDoc = false) ∧
    search_doctors (fun _ => 1) wdb "" ⟨some 0, some 0⟩ =
      search_doctors (fun _ => 1) wdb "" ⟨none, none⟩ :=
  search_doctors_fee_truthiness ⟨some 0, some 0⟩ wDoc 400 (fun _ => 1) wdb ""
